import Mathlib

/-!
Verification of the WMS frontend (purchase-order / delivery-order console).

This file gives a shallow embedding of the client-side logic of the
repository and proves properties of it.  Each definition is translated
from a specific source function, named in its doc comment:

* `src/unnamed/part_000` — the PO management page (action gating per row,
  `areAllTasksCompleted`, `isInactive`, `handleDOSuccess`);
* `src/src/api/index.ts` — the HTTP helper (`ENDPOINT_MAP` rewriting,
  response handling, `login`);
* `src/src/components/DOForm.tsx` — the stand-alone DO form
  (`generateDONumber`, `handleItemChange`, `formatItems`, `removeItem`)
  and the task table (`TaskRow` / `TaskTable`);
* `src/src/components/DeliveryOrderForm.tsx` — the PO-prefilled DO form;
* `src/unnamed/part_001` — the task management page (`handleDeleteTask`).

JavaScript truthiness (`undefined`, `null`, `""`, `0` are falsy) is made
explicit through the `truthy` / `jsOr` / `jsNumOrQ` helpers; absent or
`undefined` values are `Option.none`.
-/

namespace Wms

/-- JS truthiness of an optional string: `undefined`/`null` and `""` are
falsy, every other string is truthy. -/
def truthy (v : Option String) : Bool :=
  match v with
  | none => false
  | some s => !(s == "")

/-- JS `a || b` on optional strings: yields `a` when truthy, else `b`. -/
def jsOr (a b : Option String) : Option String :=
  if truthy a then a else b

/-- JS `a || fallback` where `a` is an optional string and the fallback is
a plain string (e.g. `item.unit || 'pcs'`). -/
def jsStrOr (v : Option String) (fallback : String) : String :=
  match v with
  | some s => if s == "" then fallback else s
  | none => fallback

/-- JS `x || fallback` on a number known to be present (`0` is falsy). -/
def jsNumOrQ (v fallback : ℚ) : ℚ :=
  if v == 0 then fallback else v

/-- JS `Number(x) || fallback` where `x` may be absent or non-numeric;
`none` models a value whose `Number(...)` coercion is `NaN` (or an absent
field), `some 0` a numeric zero — both are falsy. -/
def jsNumOr (v : Option ℚ) (fallback : ℚ) : ℚ :=
  match v with
  | some q => if q == 0 then fallback else q
  | none => fallback

/-- A task as consumed by the pages (`Task` interface of
`src/src/components/DOForm.tsx` / `part_001`); only the fields the
verified logic reads are kept. -/
structure Task where
  _id : String
  orderId : String
  status : String
deriving Repr, DecidableEq

/-- A purchase order row (`PurchaseOrder` interface of
`src/unnamed/part_000`). -/
structure PurchaseOrder where
  id : String
  status : String
  deliveryDate : String
  doCreated : Bool
  doId : Option String
  invoiceUrl : Option String
deriving Repr, DecidableEq

/-- `orderTasks[orderId] || []`: the task group of one order in the
`orderTasks : Record<string, Task[]>` state of `part_000`. -/
def tasksFor (orderTasks : List (String × List Task)) (orderId : String) : List Task :=
  match orderTasks.find? (fun p => p.1 == orderId) with
  | some p => p.2
  | none => []

/-- `areAllTasksCompleted` of `src/unnamed/part_000` (lines 117–127): with
zero tasks it returns `false`, otherwise it checks that every task of the
order has status `Completed`. -/
def areAllTasksCompleted (orderTasks : List (String × List Task)) (orderId : String) : Bool :=
  let tasks := tasksFor orderTasks orderId
  if tasks.length == 0 then false
  else tasks.all (fun t => t.status == "Completed")

/-- `isInactive` of `src/unnamed/part_000` (line 130): a PO is inactive
when its status is `cancelled` or `delivered`. -/
def isInactive (order : PurchaseOrder) : Bool :=
  order.status == "cancelled" || order.status == "delivered"

/-- The action controls a PO row can render (`part_000`, lines 620–791). -/
inductive POAction where
  | approve
  | createTask
  | viewDO
  | switchToDO
  | createDO
  | createDODropdown
  | markAsShipping
  | markAsDelivered
  | complete
  | generateInvoice
  | cancel
  | cancelledLabel
deriving Repr, DecidableEq

/-- The Actions cell of one PO row, translated condition-for-condition
from the JSX of `src/unnamed/part_000` (lines 620–791); the list order is
the render order.  `role` is `currentUser?.role`. -/
def renderActions (role : Option String) (order : PurchaseOrder)
    (orderTasks : List (String × List Task)) : List POAction :=
  let isMgrOrAdmin := role == some "manager" || role == some "superadmin"
  let isUser := role == some "user"
  (if isMgrOrAdmin && order.status == "pending" && !(isInactive order) then
    [POAction.approve] else []) ++
  (if isMgrOrAdmin && order.status == "processing" && !(isInactive order) then
    [POAction.createTask] else []) ++
  (if isUser && order.status == "processing" && !(isInactive order) then
    (if order.doCreated then [POAction.viewDO, POAction.switchToDO]
     else if areAllTasksCompleted orderTasks order.id then [POAction.createDO]
     else [POAction.createDODropdown])
   else []) ++
  (if isUser && order.status == "processing" && order.doCreated && !(isInactive order) then
    [POAction.markAsShipping] else []) ++
  (if isUser && order.status == "shipping" && !(isInactive order) then
    [POAction.markAsDelivered] else []) ++
  (if isUser && order.status == "delivered" && !(isInactive order) then
    [POAction.complete] ++
    (if order.doCreated && truthy order.doId then [POAction.viewDO] else []) ++
    (if order.doCreated then [POAction.switchToDO] else [])
   else []) ++
  (if isMgrOrAdmin && order.status == "delivered" && !(truthy order.invoiceUrl) then
    [POAction.generateInvoice] else []) ++
  (if isMgrOrAdmin && (order.status == "pending" || order.status == "processing")
      && !(isInactive order) then
    [POAction.cancel] else []) ++
  (if order.status == "cancelled" then [POAction.cancelledLabel] else [])

/-- Claim C1.  The spec table row `delivered | user → Complete, View DO,
Switch to DO` never fires in the code: that JSX block is guarded by
`order.status === 'delivered' && !isInactive(order)`, and `isInactive`
is true for every delivered order, so a delivered PO shown to role
`user` renders no action at all — contradicting the code's own comment
"for user, delivered, not cancelled".  This theorem evaluates the
embedded renderer at such a row. -/
theorem renderActions_delivered_user_is_empty :
    renderActions (some "user")
      { id := "po1", status := "delivered", deliveryDate := "2025-01-01",
        doCreated := true, doId := some "do9", invoiceUrl := none }
      [] = [] := by decide

/-- Claim C3.  A PO with status `processing`, role `user`, no DO created
and zero tasks grouped under its id: `areAllTasksCompleted` returns
`false` and the row renders exactly the Actions dropdown containing
Create DO, not the direct Create DO button. -/
theorem processing_user_no_tasks_shows_dropdown
    (o : PurchaseOrder) (ts : List (String × List Task))
    (hstatus : o.status = "processing") (hdo : o.doCreated = false)
    (htasks : tasksFor ts o.id = []) :
    areAllTasksCompleted ts o.id = false ∧
    renderActions (some "user") o ts = [POAction.createDODropdown] := by
  constructor
  · simp [areAllTasksCompleted, htasks]
  · simp [renderActions, isInactive, hstatus, hdo, areAllTasksCompleted, htasks]

/-- Concrete instance of `processing_user_no_tasks_shows_dropdown`. -/
theorem processing_user_no_tasks_shows_dropdown_witness :
    areAllTasksCompleted ([] : List (String × List Task)) "p1" = false ∧
    renderActions (some "user")
      { id := "p1", status := "processing", deliveryDate := "",
        doCreated := false, doId := none, invoiceUrl := none }
      [] = [POAction.createDODropdown] :=
  processing_user_no_tasks_shows_dropdown
    { id := "p1", status := "processing", deliveryDate := "",
      doCreated := false, doId := none, invoiceUrl := none }
    [] rfl rfl rfl

/-- The `order` sub-object of the `DOResponseData` interface of
`src/unnamed/part_000` (lines 188–198). -/
structure DOResponseOrder where
  _id : Option String
  id : Option String
  doId : Option String
deriving Repr, DecidableEq

/-- The `DOResponseData` interface of `src/unnamed/part_000`. -/
structure DOResponseData where
  order : Option DOResponseOrder
  _id : Option String
  id : Option String
  doId : Option String
  redirectUrl : Option String
deriving Repr, DecidableEq

/-- The response fields read by the `resolvedDoId` chain of
`handleDOSuccess`, in the code's priority order (the `doId` parameter
comes before them). -/
def doIdCandidates (parsedData : DOResponseData) : List (Option String) :=
  [parsedData.order.bind (fun o => o._id),
   parsedData.order.bind (fun o => o.id),
   parsedData.order.bind (fun o => o.doId),
   parsedData._id,
   parsedData.id,
   parsedData.doId]

/-- The `resolvedDoId` expression of `handleDOSuccess`
(`src/unnamed/part_000`, lines 237–243): a JS `||` chain over
`doId`, `order._id`, `order.id`, `order.doId`, `_id`, `id`, `doId`. -/
def resolvedDoId (doId : Option String) (parsedData : DOResponseData) : Option String :=
  jsOr doId
    (jsOr (parsedData.order.bind (fun o => o._id))
      (jsOr (parsedData.order.bind (fun o => o.id))
        (jsOr (parsedData.order.bind (fun o => o.doId))
          (jsOr parsedData._id
            (jsOr parsedData.id parsedData.doId)))))

/-- First non-null candidate, as the spec describes the chain
("returns the first non-null value in its documented priority order"). -/
def firstNonNull (candidates : List (Option String)) : Option String :=
  (candidates.find? Option.isSome).join

/-- First JS-truthy candidate (non-null and non-empty), the condition the
code actually applies through `||`. -/
def firstTruthy (candidates : List (Option String)) : Option String :=
  (candidates.find? truthy).join

/-- `handleDOSuccess` of `src/unnamed/part_000` (lines 212–284), reduced
to its data flow: resolve the DO id, and on success patch the order whose
id is `currentPOId` with `{doCreated: true, doId}`; on failure show an
error toast and leave the list untouched.  The pair is (outcome, new
order list). -/
def handleDOSuccess (currentPOId : Option String) (doId : Option String)
    (parsedData : DOResponseData) (orders : List PurchaseOrder) :
    Except String String × List PurchaseOrder :=
  match currentPOId with
  | none => (Except.error "Error: No purchase order selected", orders)
  | some poId =>
    match resolvedDoId doId parsedData with
    | none => (Except.error "Error: Could not create delivery order - missing ID", orders)
    | some rid =>
      if rid == "" then
        (Except.error "Error: Could not create delivery order - missing ID", orders)
      else
        (Except.ok rid,
         orders.map (fun o =>
           if o.id == poId then { o with doCreated := true, doId := some rid } else o))

/-- Claim C2, counterexample.  A response whose `order._id` is present
but empty (`""`) and whose `order.id` is `"B"`: the first non-null value
of the chain is `""`, yet the code resolves `"B"` and records it — the
chain skips falsy (empty) strings, it does not take the first non-null
value. -/
theorem resolvedDoId_skips_empty_string :
    firstNonNull
      (doIdCandidates
        { order := some { _id := some "", id := some "B", doId := none },
          _id := none, id := none, doId := none, redirectUrl := none }) = some "" ∧
    resolvedDoId none
      { order := some { _id := some "", id := some "B", doId := none },
        _id := none, id := none, doId := none, redirectUrl := none } = some "B" ∧
    (handleDOSuccess (some "p1") none
      { order := some { _id := some "", id := some "B", doId := none },
        _id := none, id := none, doId := none, redirectUrl := none }
      [{ id := "p1", status := "processing", deliveryDate := "",
         doCreated := false, doId := none, invoiceUrl := none }]).2 =
      [{ id := "p1", status := "processing", deliveryDate := "",
         doCreated := true, doId := some "B", invoiceUrl := none }] ∧
    some "B" ≠ some "" := by decide

/-- The JS `||` chain over a non-empty list of optional values (the last
candidate is returned as-is, truthy or not). -/
def jsOrList : List (Option String) → Option String
  | [] => none
  | [a] => a
  | a :: l => jsOr a (jsOrList l)

theorem resolvedDoId_eq_jsOrList (doId : Option String) (parsedData : DOResponseData) :
    resolvedDoId doId parsedData = jsOrList (doId :: doIdCandidates parsedData) := rfl

theorem firstTruthy_cons (a : Option String) (l : List (Option String)) :
    firstTruthy (a :: l) = if truthy a then a else firstTruthy l := by
  simp only [firstTruthy, List.find?_cons]
  cases h : truthy a <;> simp [h]

theorem jsOrList_of_firstTruthy_some :
    ∀ (l : List (Option String)) (x : String),
      firstTruthy l = some x → jsOrList l = some x := by
  intro l
  induction l with
  | nil => intro x h; simp [firstTruthy] at h
  | cons a l ih =>
    intro x h
    rw [firstTruthy_cons] at h
    by_cases ha : truthy a = true
    · rw [if_pos ha] at h
      cases l with
      | nil => simpa [jsOrList] using h
      | cons b l2 => simpa [jsOrList, jsOr, ha] using h
    · rw [if_neg ha] at h
      cases l with
      | nil => simp [firstTruthy] at h
      | cons b l2 =>
        have := ih x h
        simpa [jsOrList, jsOr, ha] using this

theorem truthy_jsOrList_eq_false :
    ∀ l : List (Option String), firstTruthy l = none → truthy (jsOrList l) = false := by
  intro l
  induction l with
  | nil => intro _; rfl
  | cons a l ih =>
    intro h
    rw [firstTruthy_cons] at h
    by_cases ha : truthy a = true
    · rw [if_pos ha] at h
      subst h
      simp [truthy] at ha
    · rw [if_neg ha] at h
      cases l with
      | nil => simpa [jsOrList] using (Bool.eq_false_iff.mpr ha)
      | cons b l2 =>
        have := ih h
        simpa [jsOrList, jsOr, ha] using this

theorem truthy_of_firstTruthy_some (l : List (Option String)) (x : String)
    (h : firstTruthy l = some x) : truthy (some x) = true := by
  unfold firstTruthy at h
  cases hf : l.find? truthy with
  | none => rw [hf] at h; simp at h
  | some a =>
    have ha := List.find?_some hf
    rw [hf] at h
    simp [Option.join] at h
    rw [h] at ha
    exact ha

/-- Claim C2 as amended: the DO id recorded by `handleDOSuccess` is the
first *truthy* (non-null and non-empty) value of the ordered chain
`doId` param → `order._id` → `order.id` → `order.doId` → `_id` → `id` →
`doId`; an empty-string source is skipped like an absent one.  When some
candidate is truthy, the order with id `currentPOId` is patched in place
with `{doCreated := true, doId := that value}`; when no candidate is
truthy (in particular when all seven are absent) the operation fails with
an error toast and the order list is left unchanged. -/
theorem handleDOSuccess_fallback_chain
    (doId : Option String) (parsedData : DOResponseData)
    (poId : String) (orders : List PurchaseOrder) :
    (∀ x : String, firstTruthy (doId :: doIdCandidates parsedData) = some x →
      handleDOSuccess (some poId) doId parsedData orders =
        (Except.ok x,
         orders.map (fun o =>
           if o.id == poId then { o with doCreated := true, doId := some x } else o))) ∧
    (firstTruthy (doId :: doIdCandidates parsedData) = none →
      handleDOSuccess (some poId) doId parsedData orders =
        (Except.error "Error: Could not create delivery order - missing ID", orders)) := by
  constructor
  · intro x h
    have hr : resolvedDoId doId parsedData = some x := by
      rw [resolvedDoId_eq_jsOrList]
      exact jsOrList_of_firstTruthy_some _ _ h
    have hx : (x == "") = false := by
      have := truthy_of_firstTruthy_some _ _ h
      simpa [truthy] using this
    simp [handleDOSuccess, hr, hx]
  · intro h
    have hf : truthy (jsOrList (doId :: doIdCandidates parsedData)) = false :=
      truthy_jsOrList_eq_false _ h
    rw [← resolvedDoId_eq_jsOrList] at hf
    cases hr : resolvedDoId doId parsedData with
    | none => simp [handleDOSuccess, hr]
    | some s =>
      rw [hr] at hf
      have hs : (s == "") = true := by simpa [truthy] using hf
      simp [handleDOSuccess, hr, hs]

/-- Concrete instance of `handleDOSuccess_fallback_chain`: a response
carrying only `order.doId = "X"` resolves `"X"`, and the all-absent
response fails leaving the list unchanged. -/
theorem handleDOSuccess_fallback_chain_witness :
    handleDOSuccess (some "p1") none
      { order := some { _id := none, id := none, doId := some "X" },
        _id := none, id := none, doId := none, redirectUrl := none } [] =
      (Except.ok "X", []) ∧
    handleDOSuccess (some "p1") none
      { order := none, _id := none, id := none, doId := none, redirectUrl := none } [] =
      (Except.error "Error: Could not create delivery order - missing ID", []) := by
  have h1 := handleDOSuccess_fallback_chain none
    { order := some { _id := none, id := none, doId := some "X" },
      _id := none, id := none, doId := none, redirectUrl := none } "p1" []
  have h2 := handleDOSuccess_fallback_chain none
    { order := none, _id := none, id := none, doId := none, redirectUrl := none } "p1" []
  exact ⟨by simpa using h1.1 "X" (by decide), h2.2 (by decide)⟩

/-- A DO form line item (`items` entry of the `formData` state of
`src/src/components/DOForm.tsx`). -/
structure DOItem where
  productName : String
  quantity : ℚ
  unit : String
  unitPrice : ℚ
  total : ℚ
deriving Repr, DecidableEq

/-- `handleItemChange(index, 'quantity', value)` of
`src/src/components/DOForm.tsx` (lines 403–419): sets the quantity and
recomputes `total = quantity * (newItems[index]?.unitPrice || 0)`. -/
def handleItemChangeQuantity (items : List DOItem) (index : Nat) (value : ℚ) : List DOItem :=
  match items[index]? with
  | none => items
  | some old =>
    items.set index
      { old with quantity := value, total := value * jsNumOrQ old.unitPrice 0 }

/-- `handleItemChange(index, 'unitPrice', value)` of
`src/src/components/DOForm.tsx`: sets the unit price and recomputes
`total = (newItems[index]?.quantity || 1) * unitPrice`. -/
def handleItemChangeUnitPrice (items : List DOItem) (index : Nat) (value : ℚ) : List DOItem :=
  match items[index]? with
  | none => items
  | some old =>
    items.set index
      { old with unitPrice := value, total := jsNumOrQ old.quantity 1 * value }

/-- An externally supplied raw item handed to `formatItems`; `none`
numeric fields model values whose `Number(...)` coercion is `NaN`
(missing or non-numeric). -/
structure RawDOItem where
  productName : Option String
  quantity : Option ℚ
  unit : Option String
  unitPrice : Option ℚ
deriving Repr, DecidableEq

/-- `formatItems` of `src/src/components/DOForm.tsx` (lines 292–311):
normalizes externally loaded items, defaulting quantity via
`Number(q) || 1` and unit price via `Number(p) || 0`. -/
def formatItems (items : Option (List RawDOItem)) : List DOItem :=
  match items with
  | none => [{ productName := "", quantity := 1, unit := "pcs", unitPrice := 0, total := 0 }]
  | some its =>
    its.map (fun item =>
      { productName := jsStrOr item.productName ""
        quantity := jsNumOr item.quantity 1
        unit := jsStrOr item.unit "pcs"
        unitPrice := jsNumOr item.unitPrice 0
        total := jsNumOr item.quantity 1 * jsNumOr item.unitPrice 0 })

/-- The rendered per-item Total cell:
`(item.quantity * item.unitPrice).toFixed(2)` (line 692). -/
def renderedItemTotal (item : DOItem) : ℚ :=
  item.quantity * item.unitPrice

/-- The rendered Subtotal and grand Total
(`items.reduce((sum, item) => sum + item.quantity * item.unitPrice, 0)`,
lines 718 and 725 — the same expression twice). -/
def renderedSubtotal (items : List DOItem) : ℚ :=
  items.foldl (fun sum item => sum + item.quantity * item.unitPrice) 0

/-- The sum the spec describes: `Σ quantity * unitPrice` over all items. -/
def sumOfProducts (items : List DOItem) : ℚ :=
  (items.map (fun item => item.quantity * item.unitPrice)).sum

theorem foldl_add_eq_sum (f : DOItem → ℚ) :
    ∀ (l : List DOItem) (a : ℚ), l.foldl (fun s it => s + f it) a = a + (l.map f).sum := by
  intro l
  induction l with
  | nil => intro a; simp
  | cons x xs ih => intro a; simp [List.foldl, ih, add_assoc]

theorem jsNumOrQ_zero (v : ℚ) : jsNumOrQ v 0 = v := by
  unfold jsNumOrQ
  by_cases h : v = 0 <;> simp [h]

/-- Claim C4, counterexample.  Start from the default item
(quantity 1, price 0), type `0` into the quantity field, then type `5`
into the unit-price field: the stored item ends with `quantity = 0`,
`unitPrice = 5`, but `total = 5` (the `quantity || 1` fallback kicked
in), so the stored total does not equal `quantity * unitPrice`. -/
theorem handleItemChange_total_mismatch :
    handleItemChangeUnitPrice
      (handleItemChangeQuantity
        [{ productName := "", quantity := 1, unit := "pcs", unitPrice := 0, total := 0 }] 0 0)
      0 5 =
      [{ productName := "", quantity := 0, unit := "pcs", unitPrice := 5, total := 5 }] ∧
    (5 : ℚ) ≠ 0 * 5 := by
  constructor
  · simp [handleItemChangeQuantity, handleItemChangeUnitPrice, jsNumOrQ]
  · norm_num

/-- Claim C4 as amended: a quantity edit always restores
`total = quantity * unitPrice`; a unit-price edit restores it whenever
the stored quantity is non-zero (with quantity `0` the JS `|| 1`
fallback stores `total = 1 * unitPrice` instead); the rendered per-item
total, Subtotal and grand Total always equal `quantity * unitPrice` and
`Σ quantity * unitPrice`; and `formatItems` defaults a non-numeric
quantity to 1, a non-numeric unit price to 0, and always stores a
consistent `total = quantity * unitPrice`. -/
theorem doForm_item_totals
    (items : List DOItem) (index : Nat) (v : ℚ) (old : DOItem)
    (hidx : items[index]? = some old) :
    ((handleItemChangeQuantity items index v)[index]? =
      some { old with quantity := v, total := v * old.unitPrice }) ∧
    (∀ it, (handleItemChangeQuantity items index v)[index]? = some it →
      it.total = it.quantity * it.unitPrice) ∧
    (old.quantity ≠ 0 →
      ∀ it, (handleItemChangeUnitPrice items index v)[index]? = some it →
        it.total = it.quantity * it.unitPrice) ∧
    (∀ l : List DOItem, renderedSubtotal l = sumOfProducts l) ∧
    (∀ it : DOItem, renderedItemTotal it = it.quantity * it.unitPrice) ∧
    (∀ raw : RawDOItem, ∀ it ∈ formatItems (some [raw]),
      it.total = it.quantity * it.unitPrice ∧
      (raw.quantity = none → it.quantity = 1) ∧
      (raw.unitPrice = none → it.unitPrice = 0)) := by
  have hlt : index < items.length := by
    by_contra hge
    rw [List.getElem?_eq_none (Nat.le_of_not_lt hge)] at hidx
    exact Option.noConfusion hidx
  refine ⟨?_, ?_, ?_, ?_, ?_, ?_⟩
  · simp [handleItemChangeQuantity, hidx, List.getElem?_set_self, hlt, jsNumOrQ_zero]
  · intro it hit
    simp [handleItemChangeQuantity, hidx, List.getElem?_set_self, hlt] at hit
    subst hit
    simp [jsNumOrQ_zero]
  · intro hq it hit
    simp [handleItemChangeUnitPrice, hidx, List.getElem?_set_self, hlt] at hit
    subst hit
    simp [jsNumOrQ, hq]
  · intro l
    simp [renderedSubtotal, sumOfProducts, foldl_add_eq_sum]
  · intro it
    rfl
  · intro raw it hit
    simp [formatItems] at hit
    subst hit
    refine ⟨rfl, ?_, ?_⟩
    · intro h; simp [jsNumOr, h]
    · intro h; simp [jsNumOr, h]

/-- Concrete instance of `doForm_item_totals`. -/
theorem doForm_item_totals_witness :
    ((handleItemChangeQuantity
        [{ productName := "", quantity := 1, unit := "pcs", unitPrice := 0, total := 0 }]
        0 3)[0]? =
      some { productName := "", quantity := 3, unit := "pcs", unitPrice := 0, total := 3 * 0 }) ∧
    renderedSubtotal [] = sumOfProducts [] := by
  have h := doForm_item_totals
    [{ productName := "", quantity := 1, unit := "pcs", unitPrice := 0, total := 0 }]
    0 3 { productName := "", quantity := 1, unit := "pcs", unitPrice := 0, total := 0 } rfl
  exact ⟨h.1, h.2.2.2.1 []⟩

/-- A JSON value as handled by the HTTP helper (`src/src/api/index.ts`):
enough structure for the fields the client reads. -/
inductive Json where
  | null : Json
  | str : String → Json
  | boolean : Bool → Json
  | obj : List (String × Json) → Json
deriving Repr

/-- JS member access `j.key` (undefined on non-objects / missing keys). -/
def Json.get? (j : Json) (key : String) : Option Json :=
  match j with
  | .obj fields => (fields.find? (fun p => p.1 == key)).map (fun p => p.2)
  | _ => none

/-- JS truthiness of a JSON value (objects, including `{}`, are truthy;
`null`, `""` and `false` are falsy). -/
def Json.truthy : Json → Bool
  | .null => false
  | .str s => !(s == "")
  | .boolean b => b
  | .obj _ => true

/-- JS truthiness of a possibly-absent value (`undefined` is falsy). -/
def truthyJ (v : Option Json) : Bool :=
  match v with
  | none => false
  | some j => j.truthy

/-- JS string coercion as used when a response field becomes an error
message. -/
def Json.asString : Json → String
  | .null => "null"
  | .str s => s
  | .boolean b => toString b
  | .obj _ => "[object Object]"

/-- JS `v || fallback` for a message field that must end up a string. -/
def jsMessageOr (v : Option Json) (fallback : String) : String :=
  match v with
  | some j => if j.truthy then j.asString else fallback
  | none => fallback

/-- The two relevant `localStorage` keys. -/
structure LocalSt where
  token : Option Json
  user : Option Json
deriving Repr

/-- An error travelling out of `login`; `apiError` is the `ApiError`
class of `src/src/api/index.ts`, `plainError` a plain `Error`. -/
inductive LoginError where
  | apiError (status : Nat) (message : String)
  | plainError (message : String)
deriving Repr, DecidableEq

/-- `setUserForLogging` of `src/src/api/index.ts` (lines 256–258):
stores the serialized user under the `user` key. -/
def setUserForLogging (user : Json) (st : LocalSt) : LocalSt :=
  { st with user := some user }

/-- The body of the `try` block of `login` in `src/src/api/index.ts`
(lines 167–235).  `respOk`/`respStatus` describe the HTTP response,
`parsed` is the JSON body (`none` when `response.json()` throws), and
`meResult` stands for the outcome of the nested
`apiRequest('/api/users/me')` call taken when the body carries a token
but no user.  Returns the (result, localStorage) pair. -/
def loginInner (email : String) (respOk : Bool) (respStatus : Nat)
    (parsed : Option Json) (meResult : Except LoginError Json) (st : LocalSt) :
    Except LoginError (Json × Json) × LocalSt :=
  match parsed with
  | none => (Except.error (LoginError.plainError "Invalid response from server"), st)
  | some data =>
    if !respOk then
      (Except.error (LoginError.apiError respStatus
        (jsMessageOr (data.get? "message")
          ("Login failed with status " ++ toString respStatus))), st)
    else
      let tokenv := (data.get? "data").bind (fun d => d.get? "token")
      if !(truthyJ tokenv) then
        (Except.error (LoginError.plainError "Authentication failed: No token received"), st)
      else
        let token := tokenv.getD Json.null
        let user := (data.get? "data").bind (fun d => d.get? "user")
        if !(token.truthy) then
          (Except.error (LoginError.plainError "No token received from server"), st)
        else
          let st1 := { st with token := some token }
          if truthyJ user then
            (Except.ok (token, user.getD Json.null),
             setUserForLogging (user.getD Json.null) st1)
          else
            match meResult with
            | Except.ok u => (Except.ok (token, u), setUserForLogging u st1)
            | Except.error _ =>
              (Except.ok (token, Json.obj [("email", Json.str email)]), st1)

/-- `login` of `src/src/api/index.ts` including its outer `catch`
(lines 236–242): an `ApiError` is re-thrown unchanged, every other error
is replaced by the generic `Failed to login. Please try again.`. -/
def login (email : String) (respOk : Bool) (respStatus : Nat)
    (parsed : Option Json) (meResult : Except LoginError Json) (st : LocalSt) :
    Except LoginError (Json × Json) × LocalSt :=
  match loginInner email respOk respStatus parsed meResult st with
  | (Except.ok r, st2) => (Except.ok r, st2)
  | (Except.error (LoginError.apiError s m), st2) =>
    (Except.error (LoginError.apiError s m), st2)
  | (Except.error (LoginError.plainError _), st2) =>
    (Except.error (LoginError.plainError "Failed to login. Please try again."), st2)

/-- Claim C5, counterexample.  An OK login response whose body lacks
`data.token`: `login` does reject and persists nothing, but the rejection
the caller sees is the generic `Failed to login. Please try again.` —
the internal `Authentication failed: No token received` error is caught
by the outer `catch` and replaced, so the promise does not reject with a
"no token received" error as claimed. -/
theorem login_missing_token_generic_error :
    login "a@b.c" true 200
      (some (Json.obj [("data", Json.obj [("user", Json.obj [])])]))
      (Except.error (LoginError.plainError "unused")) { token := none, user := none } =
      (Except.error (LoginError.plainError "Failed to login. Please try again."),
       { token := none, user := none }) ∧
    "Failed to login. Please try again." ≠ "Authentication failed: No token received" := by
  exact ⟨rfl, by decide⟩

/-- Claim C5 as amended: when the HTTP response is OK but its body lacks
a truthy `data.token`, `login` rejects — with the generic
`Failed to login. Please try again.` error, the internal
`No token received` error being swallowed by the outer catch — and
nothing is persisted: the `token` and `user` localStorage keys keep
their previous values. -/
theorem login_missing_token_rejects_nothing_persisted
    (email : String) (respStatus : Nat) (data : Json)
    (meResult : Except LoginError Json) (st : LocalSt)
    (hnotok : truthyJ ((data.get? "data").bind (fun d => d.get? "token")) = false) :
    login email true respStatus (some data) meResult st =
      (Except.error (LoginError.plainError "Failed to login. Please try again."), st) := by
  simp [login, loginInner, hnotok]

/-- Concrete instance of `login_missing_token_rejects_nothing_persisted`. -/
theorem login_missing_token_rejects_nothing_persisted_witness :
    login "e@x.y" true 200 (some (Json.obj [])) (Except.ok Json.null)
      { token := none, user := none } =
      (Except.error (LoginError.plainError "Failed to login. Please try again."),
       { token := none, user := none }) :=
  login_missing_token_rejects_nothing_persisted "e@x.y" 200 (Json.obj [])
    (Except.ok Json.null) { token := none, user := none } rfl

/-- The `ApiError` class of `src/src/api/index.ts`. -/
structure ApiError where
  status : Nat
  message : String
deriving Repr, DecidableEq

/-- The text of an HTTP response body as seen by `apiRequest`: empty,
valid JSON, or text that makes `JSON.parse` throw. -/
inductive BodyText where
  | empty
  | json (j : Json)
  | malformed
deriving Repr

/-- Containment of one character list in another, at any position. -/
def listContains (sub : List Char) : List Char → Bool
  | [] => sub.isEmpty
  | c :: cs => List.isPrefixOf sub (c :: cs) || listContains sub cs

/-- JS `s.includes(sub)`. -/
def jsIncludes (s sub : String) : Bool :=
  listContains sub.data s.data

/-- `data.status === 'error'` check of `apiRequest`. -/
def isErrorStatus (data : Json) : Bool :=
  match data.get? "status" with
  | some (Json.str s) => s == "error"
  | _ => false

/-- `data.data || data`, the final return of `apiRequest`. -/
def apiReturn (data : Json) : Json :=
  match data.get? "data" with
  | some d => if d.truthy then d else data
  | none => data

/-- The response-handling tail of `apiRequest` in `src/src/api/index.ts`
(lines 102–155): parse the body text (empty text becomes `{}`; a parse
failure on a successful DELETE also becomes `{}`), then surface HTTP
errors (clearing the token and redirecting on 401/403), then the
`data.status === 'error'` convention, then return `data` for `/login`
and `data.data || data` otherwise. -/
def apiRequestHandleResponse (method url : String) (respOk : Bool) (status : Nat)
    (body : BodyText) (st : LocalSt) : Except ApiError Json × LocalSt :=
  let isDeleteRequest := method == "DELETE"
  let parsed : Except ApiError Json :=
    match body with
    | .empty => Except.ok (Json.obj [])
    | .json j => Except.ok j
    | .malformed =>
      if isDeleteRequest && respOk then Except.ok (Json.obj [])
      else Except.error { status := status, message := "Invalid JSON response from server" }
  match parsed with
  | Except.error e => (Except.error e, st)
  | Except.ok data =>
    if !respOk then
      if status == 401 || status == 403 then
        let st1 := { st with token := none }
        if jsIncludes url "/auth/login" then
          let fallback :=
            if status == 401 then "Invalid email or password"
            else "You do not have permission to access this resource"
          let msg := jsMessageOr (data.get? "message") fallback
          (Except.error { status := status, message := msg }, st1)
        else
          (Except.error { status := status, message := "Session expired. Please login again." }, st1)
      else
        let msg := jsMessageOr (data.get? "message") (jsMessageOr (data.get? "error") "API request failed")
        (Except.error { status := status, message := msg }, st)
    else if isErrorStatus data then
      let msg := jsMessageOr (data.get? "message") "API request failed"
      (Except.error { status := status, message := msg }, st)
    else if url == "/login" then
      (Except.ok data, st)
    else
      (Except.ok (apiReturn data), st)

/-- `handleDeleteTask` of `src/unnamed/part_001` (lines 186–207): on a
successful DELETE, drop the task from the flat list and from every
per-order group; on failure re-throw so the row can show the error. -/
def handleDeleteTask (taskId : String) (apiResult : Except ApiError Json)
    (tasks : List Task) (orderTasks : List (String × List Task)) :
    Except ApiError (List Task × List (String × List Task)) :=
  match apiResult with
  | Except.error e => Except.error e
  | Except.ok _ =>
    Except.ok
      (tasks.filter (fun t => !(t._id == taskId)),
       orderTasks.map (fun p => (p.1, p.2.filter (fun t => !(t._id == taskId)))))

/-- Claim C6: a successful DELETE with an empty body resolves to `{}`
without a JSON-parse error (and without touching localStorage);
`handleDeleteTask` then removes exactly the task with the given id from
the flat list and from every per-order group, keeping everything else;
a failed DELETE rejects, and `handleDeleteTask` propagates the rejection
to the caller. -/
theorem deleteTask_empty_body_and_removal
    (url taskId : String) (st : LocalSt)
    (tasks : List Task) (orderTasks : List (String × List Task)) :
    apiRequestHandleResponse "DELETE" url true 200 BodyText.empty st =
      (Except.ok (Json.obj []), st) ∧
    (∀ (j : Json) (flat : List Task) (groups : List (String × List Task)),
      handleDeleteTask taskId (Except.ok j) tasks orderTasks = Except.ok (flat, groups) →
      (∀ t ∈ flat, t._id ≠ taskId) ∧
      (∀ t ∈ tasks, t._id ≠ taskId → t ∈ flat) ∧
      (∀ p ∈ groups, ∀ t ∈ p.2, t._id ≠ taskId) ∧
      (∀ p ∈ orderTasks, ∃ q ∈ groups, q.1 = p.1 ∧
        ∀ t ∈ p.2, t._id ≠ taskId → t ∈ q.2)) ∧
    (∀ (status : Nat) (body : BodyText),
      ∃ e : ApiError,
        (apiRequestHandleResponse "DELETE" url false status body st).1 = Except.error e) ∧
    (∀ e : ApiError, handleDeleteTask taskId (Except.error e) tasks orderTasks =
      Except.error e) := by
  refine ⟨?_, ?_, ?_, ?_⟩
  · by_cases h : url = "/login" <;>
      simp [apiRequestHandleResponse, isErrorStatus, apiReturn, Json.get?, h]
  · intro j flat groups h
    simp only [handleDeleteTask, Except.ok.injEq, Prod.mk.injEq] at h
    obtain ⟨hflat, hgroups⟩ := h
    subst hflat; subst hgroups
    refine ⟨?_, ?_, ?_, ?_⟩
    · intro t ht
      have := (List.mem_filter.mp ht).2
      simpa using this
    · intro t ht hne
      exact List.mem_filter.mpr ⟨ht, by simpa using hne⟩
    · intro p hp t ht
      obtain ⟨q, hq, rfl⟩ := List.mem_map.mp hp
      have := (List.mem_filter.mp ht).2
      simpa using this
    · intro p hp
      refine ⟨(p.1, p.2.filter (fun t => !(t._id == taskId))), ?_, rfl, ?_⟩
      · exact List.mem_map.mpr ⟨p, hp, rfl⟩
      · intro t ht hne
        exact List.mem_filter.mpr ⟨ht, by simpa using hne⟩
  · intro status body
    cases body <;>
      · simp only [apiRequestHandleResponse]
        repeat' split
        all_goals first
          | exact ⟨_, rfl⟩
          | simp_all
  · intro e
    rfl

/-- Concrete instance of `deleteTask_empty_body_and_removal`. -/
theorem deleteTask_empty_body_and_removal_witness :
    apiRequestHandleResponse "DELETE" "/api/tasks/t1" true 200 BodyText.empty
      { token := none, user := none } =
      (Except.ok (Json.obj []), { token := none, user := none }) ∧
    ({ _id := "t2", orderId := "o1", status := "Pending" } : Task) ∈
      ([{ _id := "t2", orderId := "o1", status := "Pending" }] : List Task) := by
  have h := deleteTask_empty_body_and_removal "/api/tasks/t1" "t1"
    { token := none, user := none }
    [{ _id := "t2", orderId := "o1", status := "Pending" }] []
  have h2 := h.2.1 (Json.obj [])
    [{ _id := "t2", orderId := "o1", status := "Pending" }] [] rfl
  exact ⟨h.1, h2.2.1 _ (by decide) (by decide)⟩

/-- `buttonShouldShow` of `TaskRow` in the task table
(`src/src/components/DOForm.tsx`, third document, line 1370): hardcoded
`true`, with the source comment "Temporarily force show for debugging". -/
def buttonShouldShow : Bool := true

/-- The render condition of the per-task "Switch to DO" button
(`{buttonShouldShow && onSwitchToDO && (<button .../>)}`, line 1435);
the task's status is not consulted. -/
def switchToDORendered (hasOnSwitchToDO : Bool) : Bool :=
  buttonShouldShow && hasOnSwitchToDO

/-- The `showSwitchButton` prop computed by `TaskTable` (line 1711):
`recentlyCompleted.has(task._id) || task.status === 'Completed'` — the
condition the spec describes.  `TaskRow` receives it but never uses it. -/
def showSwitchButton (recentlyCompleted : List String) (task : Task) : Bool :=
  recentlyCompleted.contains task._id || task.status == "Completed"

/-- `handleStatusChangeWithTracking` of `TaskTable` (lines 1639–1651):
a task id enters the session-local recently-completed set when its
status is changed to `Completed`. -/
def handleStatusChangeWithTracking (recentlyCompleted : List String)
    (taskId newStatus : String) : List String :=
  if newStatus == "Completed" then taskId :: recentlyCompleted else recentlyCompleted

/-- Claim C7.  A task with status `Pending` that is not in the
recently-completed set: the claimed visibility condition
(`showSwitchButton`) is false, yet the button's actual render condition
is true — `TaskRow` hardcodes `buttonShouldShow = true` ("Temporarily
force show for debugging") and ignores the computed prop, and
`onSwitchToDO` is always supplied (`onSwitchToDO || handleSwitchToDO`).
The tracking itself behaves as the spec says. -/
theorem switchToDO_rendered_for_pending_task :
    switchToDORendered true = true ∧
    showSwitchButton [] { _id := "t1", orderId := "o1", status := "Pending" } = false ∧
    handleStatusChangeWithTracking [] "t1" "Completed" = ["t1"] ∧
    showSwitchButton ["t1"] { _id := "t1", orderId := "o1", status := "Pending" } = true := by
  decide

/-- `String(x).padStart(2, '0')` as applied to month and day numbers. -/
def pad2 (n : Nat) : String :=
  if (toString n).length < 2 then "0" ++ toString n else toString n

/-- `Date.now().toString().slice(-6)`: the last six characters of the
decimal epoch-milliseconds timestamp. -/
def lastSixDigits (nowMs : Nat) : String :=
  (toString nowMs).takeRight 6

/-- `generateDONumber` of `src/src/components/DOForm.tsx`
(lines 134–153): builds `DO-${year}${month}${day}-${timestamp}` at mount
time.  `year`, `month`, `day` are the calendar components (month already
1-based as in `getMonth() + 1`). -/
def generateDONumber (nowMs year month day : Nat) : String :=
  "DO-" ++ toString year ++ pad2 month ++ pad2 day ++ "-" ++ lastSixDigits nowMs

/-- The DO-number initializer of
`src/src/components/DeliveryOrderForm.tsx` (lines 90 and 124):
`DO-${new Date().getTime().toString().slice(-6)}` — no date segment. -/
def deliveryOrderFormDoNumber (nowMs : Nat) : String :=
  "DO-" ++ (toString nowMs).takeRight 6

/-- The format the spec claims for both flows:
`DO-{YYYYMMDD}-{last 6 digits of the epoch-ms timestamp}`. -/
def specClaimedDoNumber (year month day nowMs : Nat) : String :=
  "DO-" ++ (toString year ++ pad2 month ++ pad2 day) ++ "-" ++ lastSixDigits nowMs

/-- Claim C8, counterexample.  At epoch 1700000000000 ms (2023-11-14)
the PO-prefilled `DeliveryOrderForm` generates `DO-000000`, not the
claimed `DO-20231114-000000`. -/
theorem deliveryOrderForm_doNumber_lacks_date :
    deliveryOrderFormDoNumber 1700000000000 = "DO-000000" ∧
    specClaimedDoNumber 2023 11 14 1700000000000 = "DO-20231114-000000" ∧
    deliveryOrderFormDoNumber 1700000000000 ≠
      specClaimedDoNumber 2023 11 14 1700000000000 := by
  decide

/-- Claim C8 as amended: only the stand-alone `DOForm` generates its DO
number in the claimed `DO-{YYYYMMDD}-{last6}` shape; the PO-prefilled
`DeliveryOrderForm` generates `DO-{last6}` with no date segment, and for
no timestamp does its number match the claimed format (shown here
against the date 2023-11-14).  Both are generated client-side at mount
time. -/
theorem doNumber_formats (nowMs year month day : Nat) :
    generateDONumber nowMs year month day = specClaimedDoNumber year month day nowMs ∧
    deliveryOrderFormDoNumber nowMs = "DO-" ++ lastSixDigits nowMs ∧
    deliveryOrderFormDoNumber nowMs ≠ specClaimedDoNumber 2023 11 14 nowMs := by
  refine ⟨rfl, rfl, ?_⟩
  intro h
  have hc : specClaimedDoNumber 2023 11 14 nowMs = "DO-20231114-" ++ lastSixDigits nowMs := rfl
  have hd : deliveryOrderFormDoNumber nowMs = "DO-" ++ lastSixDigits nowMs := rfl
  rw [hc, hd] at h
  have hlen := congrArg String.length h
  rw [String.length_append, String.length_append] at hlen
  have h1 : ("DO-" : String).length = 3 := rfl
  have h2 : ("DO-20231114-" : String).length = 12 := rfl
  omega

/-- A line item of the PO-prefilled `DeliveryOrderForm`. -/
structure DOLineItem where
  id : String
  productId : String
  productName : String
  description : String
  quantity : ℚ
  unit : String
  unitPrice : ℚ
deriving Repr, DecidableEq

/-- The supplier sub-object of the `DeliveryOrderForm` state. -/
structure Supplier where
  name : String
  address : String
  contact : String
  phone : String
  email : String
deriving Repr, DecidableEq

/-- The `formData` state of `src/src/components/DOForm.tsx`. -/
structure DOFormState where
  doNumber : String
  doDate : String
  supplierName : String
  supplierNumber : String
  supplierAddress : String
  deliveryAddress : String
  deliveryDate : String
  notes : String
  terms : String
  paymentTerms : String
  shippingMethod : String
  items : List DOItem
  totalAmount : ℚ
deriving Repr, DecidableEq

/-- The `formData` state of `src/src/components/DeliveryOrderForm.tsx`. -/
structure DeliveryOrderFormState where
  doNumber : String
  poNumber : String
  orderDate : String
  deliveryDate : String
  deliveryAddress : String
  deliveryContact : String
  deliveryPhone : String
  paymentTerms : String
  shippingMethod : String
  notes : String
  supplier : Supplier
  items : List DOLineItem
deriving Repr, DecidableEq

/-- JS `items.filter((_, i) => i !== index)`. -/
def filterIdxNe {α : Type} (l : List α) (index : Nat) : List α :=
  (l.enum.filter (fun p => !(p.1 == index))).map Prod.snd

/-- `removeItem` of `src/src/components/DOForm.tsx` (lines 392–400):
keep at least one item, otherwise filter out the given index. -/
def DOForm_removeItem (st : DOFormState) (index : Nat) : DOFormState :=
  if st.items.length ≤ 1 then st
  else { st with items := filterIdxNe st.items index }

/-- `removeItem` of `src/src/components/DeliveryOrderForm.tsx`
(lines 186–193): the same guard and filter. -/
def DeliveryOrderForm_removeItem (st : DeliveryOrderFormState) (index : Nat) :
    DeliveryOrderFormState :=
  if st.items.length ≤ 1 then st
  else { st with items := filterIdxNe st.items index }

theorem enumFrom_filter_ne_of_lt {α : Type} :
    ∀ (l : List α) (m k : Nat), k < m →
      (l.enumFrom m).filter (fun p => !(p.1 == k)) = l.enumFrom m := by
  intro l
  induction l with
  | nil => intro m k _; rfl
  | cons a l ih =>
    intro m k hk
    have hne : (m == k) = false := by simp; omega
    rw [List.enumFrom_cons, List.filter_cons]
    simp only [hne, Bool.not_false, if_true]
    rw [ih (m + 1) k (by omega)]

theorem enumFrom_filterIdx_eraseIdx {α : Type} :
    ∀ (l : List α) (n i : Nat),
      ((l.enumFrom n).filter (fun p => !(p.1 == n + i))).map Prod.snd = l.eraseIdx i := by
  intro l
  induction l with
  | nil => intro n i; rfl
  | cons a l ih =>
    intro n i
    cases i with
    | zero =>
      have hdrop : (n == n + 0) = true := by simp
      simp only [List.enumFrom, List.filter, hdrop, Bool.not_true]
      rw [enumFrom_filter_ne_of_lt l (n + 1) (n + 0) (by omega)]
      simp [List.eraseIdx, List.enumFrom_map_snd]
    | succ i =>
      have hkeep : (n == n + (i + 1)) = false := by simp
      simp only [List.enumFrom, List.filter, hkeep, Bool.not_false, List.map_cons]
      have harith : n + (i + 1) = (n + 1) + i := by omega
      rw [harith, ih (n + 1) i]
      rfl

theorem filterIdxNe_eq_eraseIdx {α : Type} (l : List α) (index : Nat) :
    filterIdxNe l index = l.eraseIdx index := by
  have := enumFrom_filterIdx_eraseIdx l 0 index
  simpa [filterIdxNe, List.enum] using this

/-- Claim C10: `removeItem` never empties the item list — with at most
one item the state is returned unchanged, and with two or more items and
a valid index exactly the item at that index is removed (the list
becomes `take index ++ drop (index+1)`), every other item and every
other form field staying unchanged; the same holds for
`DeliveryOrderForm`'s `removeItem`. -/
theorem removeItem_never_empties
    (st : DOFormState) (st2 : DeliveryOrderFormState) (index : Nat) :
    (st.items.length ≤ 1 → DOForm_removeItem st index = st) ∧
    (2 ≤ st.items.length → index < st.items.length →
      (DOForm_removeItem st index).items =
        st.items.take index ++ st.items.drop (index + 1) ∧
      (DOForm_removeItem st index).items ≠ [] ∧
      { DOForm_removeItem st index with items := st.items } = st) ∧
    (st2.items.length ≤ 1 → DeliveryOrderForm_removeItem st2 index = st2) ∧
    (2 ≤ st2.items.length → index < st2.items.length →
      (DeliveryOrderForm_removeItem st2 index).items =
        st2.items.take index ++ st2.items.drop (index + 1) ∧
      (DeliveryOrderForm_removeItem st2 index).items ≠ [] ∧
      { DeliveryOrderForm_removeItem st2 index with items := st2.items } = st2) := by
  refine ⟨?_, ?_, ?_, ?_⟩
  · intro h; simp [DOForm_removeItem, h]
  · intro h2 hidx
    have hgt : ¬ st.items.length ≤ 1 := by omega
    have herase : (DOForm_removeItem st index).items = st.items.eraseIdx index := by
      simp [DOForm_removeItem, hgt, filterIdxNe_eq_eraseIdx]
    have hlen : (st.items.eraseIdx index).length = st.items.length - 1 := by
      rw [List.length_eraseIdx]; simp [hidx]
    refine ⟨?_, ?_, ?_⟩
    · rw [herase]; exact List.eraseIdx_eq_take_drop_succ st.items index
    · rw [herase]
      intro hnil
      rw [hnil] at hlen
      simp at hlen
      omega
    · simp [DOForm_removeItem, hgt]
  · intro h; simp [DeliveryOrderForm_removeItem, h]
  · intro h2 hidx
    have hgt : ¬ st2.items.length ≤ 1 := by omega
    have herase : (DeliveryOrderForm_removeItem st2 index).items =
        st2.items.eraseIdx index := by
      simp [DeliveryOrderForm_removeItem, hgt, filterIdxNe_eq_eraseIdx]
    have hlen : (st2.items.eraseIdx index).length = st2.items.length - 1 := by
      rw [List.length_eraseIdx]; simp [hidx]
    refine ⟨?_, ?_, ?_⟩
    · rw [herase]; exact List.eraseIdx_eq_take_drop_succ st2.items index
    · rw [herase]
      intro hnil
      rw [hnil] at hlen
      simp at hlen
      omega
    · simp [DeliveryOrderForm_removeItem, hgt]

/-- Concrete instance of `removeItem_never_empties`: removing index 0
from a two-item `DOForm` leaves a non-empty list, and `removeItem` on a
one-item `DeliveryOrderForm` is the identity. -/
theorem removeItem_never_empties_witness :
    (DOForm_removeItem
      ⟨"", "", "", "", "", "", "", "", "", "", "",
       [⟨"a", 1, "pcs", 0, 0⟩, ⟨"b", 1, "pcs", 0, 0⟩], 0⟩ 0).items ≠ [] ∧
    DeliveryOrderForm_removeItem
      ⟨"", "", "", "", "", "", "", "", "", "", ⟨"", "", "", "", ""⟩,
       [⟨"i", "p", "n", "d", 1, "pcs", 0⟩]⟩ 0 =
    ⟨"", "", "", "", "", "", "", "", "", "", ⟨"", "", "", "", ""⟩,
       [⟨"i", "p", "n", "d", 1, "pcs", 0⟩]⟩ := by
  have h := removeItem_never_empties
    ⟨"", "", "", "", "", "", "", "", "", "", "",
     [⟨"a", 1, "pcs", 0, 0⟩, ⟨"b", 1, "pcs", 0, 0⟩], 0⟩
    ⟨"", "", "", "", "", "", "", "", "", "", ⟨"", "", "", "", ""⟩,
     [⟨"i", "p", "n", "d", 1, "pcs", 0⟩]⟩ 0
  exact ⟨(h.2.1 (by decide) (by decide)).2.1, h.2.2.1 (by decide)⟩


/-- The default API base URL of `src/src/api/index.ts` (line 4). -/
def BASE_URL : String := "http://localhost:8080"

/-- `ENDPOINT_MAP` of `src/src/api/index.ts` (lines 26–33): singular to
plural endpoint spellings. -/
def ENDPOINT_MAP : List (String × String) :=
  [("/api/order", "/api/orders"),
   ("/api/user", "/api/users"),
   ("/api/product", "/api/products"),
   ("/api/customer", "/api/customers"),
   ("/api/task", "/api/tasks")]

/-- JS `String.prototype.replace` with a string pattern, on character
lists: replace the first occurrence of `pat` by `rep`. -/
def replaceFirstL (pat rep : List Char) : List Char → List Char
  | [] => if List.isPrefixOf pat ([] : List Char) then rep else []
  | c :: cs =>
    if List.isPrefixOf pat (c :: cs) then rep ++ List.drop pat.length (c :: cs)
    else c :: replaceFirstL pat rep cs

/-- JS `s.replace(pat, rep)` (first occurrence only). -/
def replaceFirst (s pat rep : String) : String :=
  ⟨replaceFirstL pat.data rep.data s.data⟩

/-- JS `s.startsWith(p)`. -/
def jsStartsWith (s p : String) : Bool :=
  List.isPrefixOf p.data s.data

/-- One iteration of the `Object.entries(ENDPOINT_MAP).forEach` loop of
`apiRequest` (`src/src/api/index.ts`, lines 74–78): when the URL is
exactly `BASE_URL + singular` or starts with `BASE_URL + singular + '/'`,
replace the first occurrence of the singular by the plural. -/
def rewriteStep (u : String) (e : String × String) : String :=
  if u == BASE_URL ++ e.1 || jsStartsWith u (BASE_URL ++ e.1 ++ "/") then
    replaceFirst u e.1 e.2
  else u

/-- The whole rewriting loop over `ENDPOINT_MAP`. -/
def rewriteEndpoints (fullUrl : String) : String :=
  ENDPOINT_MAP.foldl rewriteStep fullUrl

/-- The `fullUrl` construction of `apiRequest` (line 71):
`url.startsWith('http') ? url : BASE_URL + (url.startsWith('/') ? '' : '/') + url`. -/
def buildFullUrl (url : String) : String :=
  if jsStartsWith url "http" then url
  else BASE_URL ++ ((if jsStartsWith url "/" then "" else "/") ++ url)

/-- The URL actually passed to `fetch`. -/
def dispatchedUrl (url : String) : String :=
  rewriteEndpoints (buildFullUrl url)

/-- A decidable witness that two character lists disagree at some index
below both lengths (used to discharge non-matching URL prefixes). -/
def hasMismatch (x p : List Char) : Bool :=
  (List.range (min x.length p.length)).any (fun i => !(x[i]? == p[i]?))

theorem exists_of_hasMismatch (x p : List Char) (h : hasMismatch x p = true) :
    ∃ i, i < x.length ∧ i < p.length ∧ x[i]? ≠ p[i]? := by
  unfold hasMismatch at h
  obtain ⟨i, hmem, hpred⟩ := List.any_eq_true.mp h
  have hi := List.mem_range.mp hmem
  refine ⟨i, lt_of_lt_of_le hi (min_le_left _ _), lt_of_lt_of_le hi (min_le_right _ _), ?_⟩
  intro heq
  simp [heq] at hpred

theorem isPrefixOf_append_left_of_le (p l r : List Char) (h : p.length ≤ l.length) :
    List.isPrefixOf p (l ++ r) = List.isPrefixOf p l := by
  induction p generalizing l with
  | nil => simp [List.isPrefixOf]
  | cons a p ih =>
    cases l with
    | nil => simp at h
    | cons b l =>
      simp only [List.cons_append, List.isPrefixOf, List.append_eq]
      rw [ih l (by simpa using Nat.le_of_succ_le_succ h)]

theorem isPrefixOf_self_append (p r : List Char) :
    List.isPrefixOf p (p ++ r) = true := by
  induction p with
  | nil => simp [List.isPrefixOf]
  | cons a p ih => simp [List.isPrefixOf, ih]

theorem isPrefixOf_eq_false_of_mismatch (p x r : List Char) (i : Nat)
    (hix : i < x.length) (hip : i < p.length) (hne : x[i]? ≠ p[i]?) :
    List.isPrefixOf p (x ++ r) = false := by
  cases h : List.isPrefixOf p (x ++ r) with
  | false => rfl
  | true =>
    exfalso
    have hpre : p <+: x ++ r := List.isPrefixOf_iff_prefix.mp h
    obtain ⟨t, ht⟩ := hpre
    have hget : (x ++ r)[i]? = p[i]? := by
      rw [← ht]
      exact List.getElem?_append_left hip
    rw [List.getElem?_append_left hix] at hget
    exact hne hget

theorem isPrefixOf_append_cancel (a p q : List Char) :
    List.isPrefixOf (a ++ p) (a ++ q) = List.isPrefixOf p q := by
  induction a with
  | nil => rfl
  | cons c a ih => simp [List.isPrefixOf, ih]

theorem replaceFirstL_append (pat rep : List Char) :
    ∀ (b r : List Char), pat ≠ [] →
      (∀ i, i < b.length → List.isPrefixOf pat (List.drop i (b ++ pat)) = false) →
      replaceFirstL pat rep (b ++ (pat ++ r)) = b ++ (rep ++ r) := by
  intro b
  induction b with
  | nil =>
    intro r hp _
    cases pat with
    | nil => exact absurd rfl hp
    | cons a ps =>
      show replaceFirstL (a :: ps) rep ((a :: ps) ++ r) = rep ++ r
      rw [List.cons_append]
      simp only [replaceFirstL]
      rw [show List.isPrefixOf (a :: ps) (a :: (ps ++ r)) = true from by
        have := isPrefixOf_self_append (a :: ps) r
        simp [this]]
      simp [List.drop_succ_cons, List.drop_left]
  | cons c b ih =>
    intro r hp hocc
    have hfalse : List.isPrefixOf pat (c :: (b ++ (pat ++ r))) = false := by
      have h0 := hocc 0 (by simp)
      simp only [List.drop_zero] at h0
      have hlen : pat.length ≤ ((c :: b) ++ pat).length := by simp; omega
      have hred := isPrefixOf_append_left_of_le pat ((c :: b) ++ pat) r hlen
      rw [h0] at hred
      simpa [List.append_assoc] using hred
    simp only [List.cons_append, replaceFirstL, List.append_eq, hfalse, Bool.false_eq_true,
      if_false]
    have hocc2 : ∀ i, i < b.length → List.isPrefixOf pat (List.drop i (b ++ pat)) = false := by
      intro i hi
      have := hocc (i + 1) (by simpa using Nat.succ_lt_succ hi)
      simpa [List.cons_append, List.drop_succ_cons] using this
    rw [ih r hp hocc2]

theorem rewriteStep_skip (x rd : List Char) (e : String × String)
    (h : hasMismatch x (e.1.data ++ ['/']) = true) :
    rewriteStep ⟨BASE_URL.data ++ (x ++ rd)⟩ e = ⟨BASE_URL.data ++ (x ++ rd)⟩ := by
  obtain ⟨i, hix, hip, hne⟩ := exists_of_hasMismatch _ _ h
  have h1 : ((⟨BASE_URL.data ++ (x ++ rd)⟩ : String) == BASE_URL ++ e.1) = false := by
    apply beq_eq_false_iff_ne.mpr
    intro heq
    have hdata : BASE_URL.data ++ (x ++ rd) = BASE_URL.data ++ e.1.data :=
      congrArg String.data heq
    have hxr : x ++ rd = e.1.data := by
      exact List.append_cancel_left hdata
    have hlenx : x.length ≤ e.1.data.length := by
      have hl := congrArg List.length hxr
      rw [List.length_append] at hl
      omega
    have hie : i < e.1.data.length := lt_of_lt_of_le hix hlenx
    apply hne
    rw [List.getElem?_append_left hie, ← hxr, List.getElem?_append_left hix]
  have h2 : jsStartsWith ⟨BASE_URL.data ++ (x ++ rd)⟩ (BASE_URL ++ e.1 ++ "/") = false := by
    show List.isPrefixOf (BASE_URL ++ e.1 ++ "/").data (BASE_URL.data ++ (x ++ rd)) = false
    have hdata : (BASE_URL ++ e.1 ++ "/").data = BASE_URL.data ++ (e.1.data ++ ['/']) := by
      show (BASE_URL.data ++ e.1.data) ++ ['/'] = BASE_URL.data ++ (e.1.data ++ ['/'])
      rw [List.append_assoc]
    rw [hdata, isPrefixOf_append_cancel]
    exact isPrefixOf_eq_false_of_mismatch (e.1.data ++ ['/']) x rd i hix hip hne
  simp [rewriteStep, h1, h2]

theorem rewriteStep_hit (e : String × String) (rd : List Char)
    (hp : e.1.data ≠ [])
    (hocc : ∀ i, i < BASE_URL.data.length →
      List.isPrefixOf e.1.data (List.drop i (BASE_URL.data ++ e.1.data)) = false) :
    rewriteStep ⟨BASE_URL.data ++ (e.1.data ++ ('/' :: rd))⟩ e =
      ⟨BASE_URL.data ++ (e.2.data ++ ('/' :: rd))⟩ := by
  have h2 : jsStartsWith ⟨BASE_URL.data ++ (e.1.data ++ ('/' :: rd))⟩
      (BASE_URL ++ e.1 ++ "/") = true := by
    show List.isPrefixOf (BASE_URL ++ e.1 ++ "/").data
      (BASE_URL.data ++ (e.1.data ++ ('/' :: rd))) = true
    have hdata : (BASE_URL ++ e.1 ++ "/").data = (BASE_URL.data ++ e.1.data) ++ ['/'] := rfl
    have hform : BASE_URL.data ++ (e.1.data ++ ('/' :: rd)) =
        ((BASE_URL.data ++ e.1.data) ++ ['/']) ++ rd := by simp
    rw [hdata, hform]
    exact isPrefixOf_self_append _ _
  simp only [rewriteStep, h2, Bool.or_true, if_true]
  show (⟨replaceFirstL e.1.data e.2.data (BASE_URL.data ++ (e.1.data ++ ('/' :: rd)))⟩ : String) = _
  rw [replaceFirstL_append e.1.data e.2.data BASE_URL.data ('/' :: rd) hp hocc]

theorem jsStartsWith_lit (x r p : String) (hle : p.data.length ≤ x.data.length) :
    jsStartsWith (x ++ r) p = List.isPrefixOf p.data x.data := by
  show List.isPrefixOf p.data (x.data ++ r.data) = _
  exact isPrefixOf_append_left_of_le p.data x.data r.data hle

theorem buildFullUrl_slashLit (x rest : String)
    (h1 : jsStartsWith (x ++ rest) "http" = false)
    (h2 : jsStartsWith (x ++ rest) "/" = true) :
    buildFullUrl (x ++ rest) = BASE_URL ++ (x ++ rest) := by
  simp only [buildFullUrl, h1, h2, Bool.false_eq_true, if_false, if_true]
  rfl

theorem dispatched_order_slash (rest : String) :
    dispatchedUrl ("/api/order/" ++ rest) = BASE_URL ++ "/api/orders/" ++ rest := by
  have h1 : jsStartsWith ("/api/order/" ++ rest) "http" = false := by
    rw [jsStartsWith_lit "/api/order/" rest "http" (by decide)]; decide
  have h2 : jsStartsWith ("/api/order/" ++ rest) "/" = true := by
    rw [jsStartsWith_lit "/api/order/" rest "/" (by decide)]; decide
  unfold dispatchedUrl
  rw [buildFullUrl_slashLit "/api/order/" rest h1 h2]
  rw [show (BASE_URL ++ ("/api/order/" ++ rest) : String) =
    (⟨BASE_URL.data ++ ("/api/order".data ++ ('/' :: rest.data))⟩ : String) from rfl]
  simp only [rewriteEndpoints, ENDPOINT_MAP, List.foldl_cons, List.foldl_nil]
  rw [rewriteStep_hit ("/api/order", "/api/orders") rest.data (by decide) (by decide)]
  rw [rewriteStep_skip "/api/orders".data ('/' :: rest.data) ("/api/user", "/api/users") (by decide)]
  rw [rewriteStep_skip "/api/orders".data ('/' :: rest.data) ("/api/product", "/api/products") (by decide)]
  rw [rewriteStep_skip "/api/orders".data ('/' :: rest.data) ("/api/customer", "/api/customers") (by decide)]
  rw [rewriteStep_skip "/api/orders".data ('/' :: rest.data) ("/api/task", "/api/tasks") (by decide)]
  rfl

theorem dispatched_user_slash (rest : String) :
    dispatchedUrl ("/api/user/" ++ rest) = BASE_URL ++ "/api/users/" ++ rest := by
  have h1 : jsStartsWith ("/api/user/" ++ rest) "http" = false := by
    rw [jsStartsWith_lit "/api/user/" rest "http" (by decide)]; decide
  have h2 : jsStartsWith ("/api/user/" ++ rest) "/" = true := by
    rw [jsStartsWith_lit "/api/user/" rest "/" (by decide)]; decide
  unfold dispatchedUrl
  rw [buildFullUrl_slashLit "/api/user/" rest h1 h2]
  rw [show (BASE_URL ++ ("/api/user/" ++ rest) : String) =
    (⟨BASE_URL.data ++ ("/api/user".data ++ ('/' :: rest.data))⟩ : String) from rfl]
  simp only [rewriteEndpoints, ENDPOINT_MAP, List.foldl_cons, List.foldl_nil]
  rw [rewriteStep_skip "/api/user".data ('/' :: rest.data) ("/api/order", "/api/orders") (by decide)]
  rw [rewriteStep_hit ("/api/user", "/api/users") rest.data (by decide) (by decide)]
  rw [rewriteStep_skip "/api/users".data ('/' :: rest.data) ("/api/product", "/api/products") (by decide)]
  rw [rewriteStep_skip "/api/users".data ('/' :: rest.data) ("/api/customer", "/api/customers") (by decide)]
  rw [rewriteStep_skip "/api/users".data ('/' :: rest.data) ("/api/task", "/api/tasks") (by decide)]
  rfl

theorem dispatched_product_slash (rest : String) :
    dispatchedUrl ("/api/product/" ++ rest) = BASE_URL ++ "/api/products/" ++ rest := by
  have h1 : jsStartsWith ("/api/product/" ++ rest) "http" = false := by
    rw [jsStartsWith_lit "/api/product/" rest "http" (by decide)]; decide
  have h2 : jsStartsWith ("/api/product/" ++ rest) "/" = true := by
    rw [jsStartsWith_lit "/api/product/" rest "/" (by decide)]; decide
  unfold dispatchedUrl
  rw [buildFullUrl_slashLit "/api/product/" rest h1 h2]
  rw [show (BASE_URL ++ ("/api/product/" ++ rest) : String) =
    (⟨BASE_URL.data ++ ("/api/product".data ++ ('/' :: rest.data))⟩ : String) from rfl]
  simp only [rewriteEndpoints, ENDPOINT_MAP, List.foldl_cons, List.foldl_nil]
  rw [rewriteStep_skip "/api/product".data ('/' :: rest.data) ("/api/order", "/api/orders") (by decide)]
  rw [rewriteStep_skip "/api/product".data ('/' :: rest.data) ("/api/user", "/api/users") (by decide)]
  rw [rewriteStep_hit ("/api/product", "/api/products") rest.data (by decide) (by decide)]
  rw [rewriteStep_skip "/api/products".data ('/' :: rest.data) ("/api/customer", "/api/customers") (by decide)]
  rw [rewriteStep_skip "/api/products".data ('/' :: rest.data) ("/api/task", "/api/tasks") (by decide)]
  rfl

theorem dispatched_customer_slash (rest : String) :
    dispatchedUrl ("/api/customer/" ++ rest) = BASE_URL ++ "/api/customers/" ++ rest := by
  have h1 : jsStartsWith ("/api/customer/" ++ rest) "http" = false := by
    rw [jsStartsWith_lit "/api/customer/" rest "http" (by decide)]; decide
  have h2 : jsStartsWith ("/api/customer/" ++ rest) "/" = true := by
    rw [jsStartsWith_lit "/api/customer/" rest "/" (by decide)]; decide
  unfold dispatchedUrl
  rw [buildFullUrl_slashLit "/api/customer/" rest h1 h2]
  rw [show (BASE_URL ++ ("/api/customer/" ++ rest) : String) =
    (⟨BASE_URL.data ++ ("/api/customer".data ++ ('/' :: rest.data))⟩ : String) from rfl]
  simp only [rewriteEndpoints, ENDPOINT_MAP, List.foldl_cons, List.foldl_nil]
  rw [rewriteStep_skip "/api/customer".data ('/' :: rest.data) ("/api/order", "/api/orders") (by decide)]
  rw [rewriteStep_skip "/api/customer".data ('/' :: rest.data) ("/api/user", "/api/users") (by decide)]
  rw [rewriteStep_skip "/api/customer".data ('/' :: rest.data) ("/api/product", "/api/products") (by decide)]
  rw [rewriteStep_hit ("/api/customer", "/api/customers") rest.data (by decide) (by decide)]
  rw [rewriteStep_skip "/api/customers".data ('/' :: rest.data) ("/api/task", "/api/tasks") (by decide)]
  rfl

theorem dispatched_task_slash (rest : String) :
    dispatchedUrl ("/api/task/" ++ rest) = BASE_URL ++ "/api/tasks/" ++ rest := by
  have h1 : jsStartsWith ("/api/task/" ++ rest) "http" = false := by
    rw [jsStartsWith_lit "/api/task/" rest "http" (by decide)]; decide
  have h2 : jsStartsWith ("/api/task/" ++ rest) "/" = true := by
    rw [jsStartsWith_lit "/api/task/" rest "/" (by decide)]; decide
  unfold dispatchedUrl
  rw [buildFullUrl_slashLit "/api/task/" rest h1 h2]
  rw [show (BASE_URL ++ ("/api/task/" ++ rest) : String) =
    (⟨BASE_URL.data ++ ("/api/task".data ++ ('/' :: rest.data))⟩ : String) from rfl]
  simp only [rewriteEndpoints, ENDPOINT_MAP, List.foldl_cons, List.foldl_nil]
  rw [rewriteStep_skip "/api/task".data ('/' :: rest.data) ("/api/order", "/api/orders") (by decide)]
  rw [rewriteStep_skip "/api/task".data ('/' :: rest.data) ("/api/user", "/api/users") (by decide)]
  rw [rewriteStep_skip "/api/task".data ('/' :: rest.data) ("/api/product", "/api/products") (by decide)]
  rw [rewriteStep_skip "/api/task".data ('/' :: rest.data) ("/api/customer", "/api/customers") (by decide)]
  rw [rewriteStep_hit ("/api/task", "/api/tasks") rest.data (by decide) (by decide)]
  rfl

theorem dispatched_orders_unchanged (rest : String) :
    dispatchedUrl ("/api/orders/" ++ rest) = BASE_URL ++ "/api/orders/" ++ rest := by
  have h1 : jsStartsWith ("/api/orders/" ++ rest) "http" = false := by
    rw [jsStartsWith_lit "/api/orders/" rest "http" (by decide)]; decide
  have h2 : jsStartsWith ("/api/orders/" ++ rest) "/" = true := by
    rw [jsStartsWith_lit "/api/orders/" rest "/" (by decide)]; decide
  unfold dispatchedUrl
  rw [buildFullUrl_slashLit "/api/orders/" rest h1 h2]
  rw [show (BASE_URL ++ ("/api/orders/" ++ rest) : String) =
    (⟨BASE_URL.data ++ ("/api/orders".data ++ ('/' :: rest.data))⟩ : String) from rfl]
  simp only [rewriteEndpoints, ENDPOINT_MAP, List.foldl_cons, List.foldl_nil]
  rw [rewriteStep_skip "/api/orders".data ('/' :: rest.data) ("/api/order", "/api/orders") (by decide)]
  rw [rewriteStep_skip "/api/orders".data ('/' :: rest.data) ("/api/user", "/api/users") (by decide)]
  rw [rewriteStep_skip "/api/orders".data ('/' :: rest.data) ("/api/product", "/api/products") (by decide)]
  rw [rewriteStep_skip "/api/orders".data ('/' :: rest.data) ("/api/customer", "/api/customers") (by decide)]
  rw [rewriteStep_skip "/api/orders".data ('/' :: rest.data) ("/api/task", "/api/tasks") (by decide)]
  rfl

theorem dispatched_users_unchanged (rest : String) :
    dispatchedUrl ("/api/users/" ++ rest) = BASE_URL ++ "/api/users/" ++ rest := by
  have h1 : jsStartsWith ("/api/users/" ++ rest) "http" = false := by
    rw [jsStartsWith_lit "/api/users/" rest "http" (by decide)]; decide
  have h2 : jsStartsWith ("/api/users/" ++ rest) "/" = true := by
    rw [jsStartsWith_lit "/api/users/" rest "/" (by decide)]; decide
  unfold dispatchedUrl
  rw [buildFullUrl_slashLit "/api/users/" rest h1 h2]
  rw [show (BASE_URL ++ ("/api/users/" ++ rest) : String) =
    (⟨BASE_URL.data ++ ("/api/users".data ++ ('/' :: rest.data))⟩ : String) from rfl]
  simp only [rewriteEndpoints, ENDPOINT_MAP, List.foldl_cons, List.foldl_nil]
  rw [rewriteStep_skip "/api/users".data ('/' :: rest.data) ("/api/order", "/api/orders") (by decide)]
  rw [rewriteStep_skip "/api/users".data ('/' :: rest.data) ("/api/user", "/api/users") (by decide)]
  rw [rewriteStep_skip "/api/users".data ('/' :: rest.data) ("/api/product", "/api/products") (by decide)]
  rw [rewriteStep_skip "/api/users".data ('/' :: rest.data) ("/api/customer", "/api/customers") (by decide)]
  rw [rewriteStep_skip "/api/users".data ('/' :: rest.data) ("/api/task", "/api/tasks") (by decide)]
  rfl

theorem dispatched_products_unchanged (rest : String) :
    dispatchedUrl ("/api/products/" ++ rest) = BASE_URL ++ "/api/products/" ++ rest := by
  have h1 : jsStartsWith ("/api/products/" ++ rest) "http" = false := by
    rw [jsStartsWith_lit "/api/products/" rest "http" (by decide)]; decide
  have h2 : jsStartsWith ("/api/products/" ++ rest) "/" = true := by
    rw [jsStartsWith_lit "/api/products/" rest "/" (by decide)]; decide
  unfold dispatchedUrl
  rw [buildFullUrl_slashLit "/api/products/" rest h1 h2]
  rw [show (BASE_URL ++ ("/api/products/" ++ rest) : String) =
    (⟨BASE_URL.data ++ ("/api/products".data ++ ('/' :: rest.data))⟩ : String) from rfl]
  simp only [rewriteEndpoints, ENDPOINT_MAP, List.foldl_cons, List.foldl_nil]
  rw [rewriteStep_skip "/api/products".data ('/' :: rest.data) ("/api/order", "/api/orders") (by decide)]
  rw [rewriteStep_skip "/api/products".data ('/' :: rest.data) ("/api/user", "/api/users") (by decide)]
  rw [rewriteStep_skip "/api/products".data ('/' :: rest.data) ("/api/product", "/api/products") (by decide)]
  rw [rewriteStep_skip "/api/products".data ('/' :: rest.data) ("/api/customer", "/api/customers") (by decide)]
  rw [rewriteStep_skip "/api/products".data ('/' :: rest.data) ("/api/task", "/api/tasks") (by decide)]
  rfl

theorem dispatched_customers_unchanged (rest : String) :
    dispatchedUrl ("/api/customers/" ++ rest) = BASE_URL ++ "/api/customers/" ++ rest := by
  have h1 : jsStartsWith ("/api/customers/" ++ rest) "http" = false := by
    rw [jsStartsWith_lit "/api/customers/" rest "http" (by decide)]; decide
  have h2 : jsStartsWith ("/api/customers/" ++ rest) "/" = true := by
    rw [jsStartsWith_lit "/api/customers/" rest "/" (by decide)]; decide
  unfold dispatchedUrl
  rw [buildFullUrl_slashLit "/api/customers/" rest h1 h2]
  rw [show (BASE_URL ++ ("/api/customers/" ++ rest) : String) =
    (⟨BASE_URL.data ++ ("/api/customers".data ++ ('/' :: rest.data))⟩ : String) from rfl]
  simp only [rewriteEndpoints, ENDPOINT_MAP, List.foldl_cons, List.foldl_nil]
  rw [rewriteStep_skip "/api/customers".data ('/' :: rest.data) ("/api/order", "/api/orders") (by decide)]
  rw [rewriteStep_skip "/api/customers".data ('/' :: rest.data) ("/api/user", "/api/users") (by decide)]
  rw [rewriteStep_skip "/api/customers".data ('/' :: rest.data) ("/api/product", "/api/products") (by decide)]
  rw [rewriteStep_skip "/api/customers".data ('/' :: rest.data) ("/api/customer", "/api/customers") (by decide)]
  rw [rewriteStep_skip "/api/customers".data ('/' :: rest.data) ("/api/task", "/api/tasks") (by decide)]
  rfl

theorem dispatched_tasks_unchanged (rest : String) :
    dispatchedUrl ("/api/tasks/" ++ rest) = BASE_URL ++ "/api/tasks/" ++ rest := by
  have h1 : jsStartsWith ("/api/tasks/" ++ rest) "http" = false := by
    rw [jsStartsWith_lit "/api/tasks/" rest "http" (by decide)]; decide
  have h2 : jsStartsWith ("/api/tasks/" ++ rest) "/" = true := by
    rw [jsStartsWith_lit "/api/tasks/" rest "/" (by decide)]; decide
  unfold dispatchedUrl
  rw [buildFullUrl_slashLit "/api/tasks/" rest h1 h2]
  rw [show (BASE_URL ++ ("/api/tasks/" ++ rest) : String) =
    (⟨BASE_URL.data ++ ("/api/tasks".data ++ ('/' :: rest.data))⟩ : String) from rfl]
  simp only [rewriteEndpoints, ENDPOINT_MAP, List.foldl_cons, List.foldl_nil]
  rw [rewriteStep_skip "/api/tasks".data ('/' :: rest.data) ("/api/order", "/api/orders") (by decide)]
  rw [rewriteStep_skip "/api/tasks".data ('/' :: rest.data) ("/api/user", "/api/users") (by decide)]
  rw [rewriteStep_skip "/api/tasks".data ('/' :: rest.data) ("/api/product", "/api/products") (by decide)]
  rw [rewriteStep_skip "/api/tasks".data ('/' :: rest.data) ("/api/customer", "/api/customers") (by decide)]
  rw [rewriteStep_skip "/api/tasks".data ('/' :: rest.data) ("/api/task", "/api/tasks") (by decide)]
  rfl

theorem dispatched_exacts :
    dispatchedUrl "/api/order" = BASE_URL ++ "/api/orders" ∧
    dispatchedUrl "/api/user" = BASE_URL ++ "/api/users" ∧
    dispatchedUrl "/api/product" = BASE_URL ++ "/api/products" ∧
    dispatchedUrl "/api/customer" = BASE_URL ++ "/api/customers" ∧
    dispatchedUrl "/api/task" = BASE_URL ++ "/api/tasks" ∧
    dispatchedUrl "/api/orders" = BASE_URL ++ "/api/orders" ∧
    dispatchedUrl "/api/users" = BASE_URL ++ "/api/users" ∧
    dispatchedUrl "/api/products" = BASE_URL ++ "/api/products" ∧
    dispatchedUrl "/api/customers" = BASE_URL ++ "/api/customers" ∧
    dispatchedUrl "/api/tasks" = BASE_URL ++ "/api/tasks" ∧
    dispatchedUrl "/api/users/me" = BASE_URL ++ "/api/users/me" := by
  decide


/-- Claim C9: for every request URL whose path is exactly one of the five
singular endpoints, or begins with that singular path followed by `/`,
`apiRequest` dispatches the corresponding plural URL; URLs that are
already plural — exactly or with any suffix, e.g. `/api/users/me` — are
dispatched unchanged. -/
theorem apiRequest_singular_to_plural (rest : String) :
    dispatchedUrl "/api/order" = BASE_URL ++ "/api/orders" ∧
    dispatchedUrl "/api/user" = BASE_URL ++ "/api/users" ∧
    dispatchedUrl "/api/product" = BASE_URL ++ "/api/products" ∧
    dispatchedUrl "/api/customer" = BASE_URL ++ "/api/customers" ∧
    dispatchedUrl "/api/task" = BASE_URL ++ "/api/tasks" ∧
    dispatchedUrl ("/api/order/" ++ rest) = BASE_URL ++ "/api/orders/" ++ rest ∧
    dispatchedUrl ("/api/user/" ++ rest) = BASE_URL ++ "/api/users/" ++ rest ∧
    dispatchedUrl ("/api/product/" ++ rest) = BASE_URL ++ "/api/products/" ++ rest ∧
    dispatchedUrl ("/api/customer/" ++ rest) = BASE_URL ++ "/api/customers/" ++ rest ∧
    dispatchedUrl ("/api/task/" ++ rest) = BASE_URL ++ "/api/tasks/" ++ rest ∧
    dispatchedUrl ("/api/orders/" ++ rest) = BASE_URL ++ "/api/orders/" ++ rest ∧
    dispatchedUrl ("/api/users/" ++ rest) = BASE_URL ++ "/api/users/" ++ rest ∧
    dispatchedUrl ("/api/products/" ++ rest) = BASE_URL ++ "/api/products/" ++ rest ∧
    dispatchedUrl ("/api/customers/" ++ rest) = BASE_URL ++ "/api/customers/" ++ rest ∧
    dispatchedUrl ("/api/tasks/" ++ rest) = BASE_URL ++ "/api/tasks/" ++ rest ∧
    dispatchedUrl "/api/orders" = BASE_URL ++ "/api/orders" ∧
    dispatchedUrl "/api/users" = BASE_URL ++ "/api/users" ∧
    dispatchedUrl "/api/products" = BASE_URL ++ "/api/products" ∧
    dispatchedUrl "/api/customers" = BASE_URL ++ "/api/customers" ∧
    dispatchedUrl "/api/tasks" = BASE_URL ++ "/api/tasks" ∧
    dispatchedUrl "/api/users/me" = BASE_URL ++ "/api/users/me" := by
  have he := dispatched_exacts
  exact ⟨he.1, he.2.1, he.2.2.1, he.2.2.2.1, he.2.2.2.2.1,
    dispatched_order_slash rest, dispatched_user_slash rest,
    dispatched_product_slash rest, dispatched_customer_slash rest,
    dispatched_task_slash rest,
    dispatched_orders_unchanged rest, dispatched_users_unchanged rest,
    dispatched_products_unchanged rest, dispatched_customers_unchanged rest,
    dispatched_tasks_unchanged rest,
    he.2.2.2.2.2.1, he.2.2.2.2.2.2.1, he.2.2.2.2.2.2.2.1,
    he.2.2.2.2.2.2.2.2.1, he.2.2.2.2.2.2.2.2.2.1,
    he.2.2.2.2.2.2.2.2.2.2⟩

end Wms
